import Mathlib

set_option maxHeartbeats 1000000

/-!
Shallow embedding of the tenant credential store and the multi-resource
aggregation pipeline implemented in `backend/app.py`.

Modelling conventions:
* Python strings are `String`; `value.startswith(pre)` is `pyStartsWith`,
  `s.strip()` is `pyStrip`, and `len(s)` is `String.length`.
* Python integers are `Int`; the idiom `int(n or 0)` on an integer is
  `pyOrZero`.
* The persisted `tenants.json` file is a `FileState`: missing, unparseable,
  or a parsed list of tenant records.
* The `cryptography.fernet.Fernet` instance `_FERNET` is external library
  code; it is modelled by the interface `FernetModel`, whose two laws hold
  of real Fernet tokens: every token is URL-safe base64 text that begins
  with `gAAAA` (the encoding of the fixed version byte 0x80) and is far
  longer than 20 characters, and decryption with the same key inverts
  encryption.  `fernetRef` is a concrete executable instance of the
  interface used to evaluate the store operations on closed inputs.
-/

/-- The Python expression `value.startswith(pre)`: `pre` is a prefix of
`value`, decided on the underlying character lists. -/
def pyStartsWith (value pre : String) : Bool :=
  List.isPrefixOf pre.data value.data

/-- The Python expression `s.strip()`: drop leading and trailing
whitespace.  Defined by structural recursion on the character list so that
closed instances evaluate inside the kernel. -/
def pyStrip (s : String) : String :=
  String.mk (((s.data.dropWhile Char.isWhitespace).reverse.dropWhile
    Char.isWhitespace).reverse)

/-- The Python expression `int(n or 0)` applied to an integer `n`: `n or 0`
yields `0` when `n` is falsy (i.e. zero) and `n` otherwise, so on integers
the whole idiom is the identity. -/
def pyOrZero (n : Int) : Int :=
  if n = 0 then 0 else n

/-- Translation of `_looks_encrypted` (app.py line 44): a stored secret is
recognized as a cipher envelope when it starts with the magic text `gAAAA`
and is longer than 20 characters. -/
def _looks_encrypted (value : String) : Bool :=
  pyStartsWith value "gAAAA" && decide (value.length > 20)

/-- Interface model of the process-wide Fernet cipher `_FERNET`
(app.py line 36).  The two laws state exactly the properties of real
Fernet tokens that the store logic relies on: produced tokens match the
`_looks_encrypted` envelope heuristic, and decryption inverts
encryption. -/
structure FernetModel where
  encrypt : String → String
  decrypt : String → Option String
  encrypt_looks : ∀ s, _looks_encrypted (encrypt s) = true
  decrypt_encrypt : ∀ s, decrypt (encrypt s) = some s

/-- Envelope header used by the reference cipher instance; 21 characters
beginning with `gAAAA`, so every produced token is longer than 20
characters. -/
def envHead : String := "gAAAA_model_padding__"

/-- Reference cipher: prepend the envelope header. -/
def refEncrypt (s : String) : String := envHead ++ s

/-- Reference decipher: strip the envelope header, failing (like Fernet's
`InvalidToken`) when the header is absent. -/
def refDecrypt (s : String) : Option String :=
  if List.isPrefixOf envHead.data s.data then
    some (String.mk (s.data.drop envHead.data.length))
  else
    none

lemma data_append (a b : String) : (a ++ b).data = a.data ++ b.data := by
  cases a; cases b; rfl

lemma length_eq_data (s : String) : s.length = s.data.length := rfl

lemma isPrefixOf_append (l₁ l₂ : List Char) : List.isPrefixOf l₁ (l₁ ++ l₂) = true := by
  induction l₁ with
  | nil => simp [List.isPrefixOf]
  | cons a as ih => simp [List.isPrefixOf, ih]

lemma refEncrypt_looks (s : String) : _looks_encrypted (refEncrypt s) = true := by
  have h1 : pyStartsWith (refEncrypt s) "gAAAA" = true := by
    unfold pyStartsWith refEncrypt
    rw [data_append]
    have he : envHead.data = "gAAAA".data ++ "_model_padding__".data := by decide
    rw [he, List.append_assoc]
    exact isPrefixOf_append _ _
  have h2 : (refEncrypt s).length > 20 := by
    have hl : (refEncrypt s).length = 21 + s.data.length := by
      unfold refEncrypt
      rw [length_eq_data, data_append, List.length_append]
      have : envHead.data.length = 21 := by decide
      omega
    omega
  unfold _looks_encrypted
  rw [h1]
  simpa using h2

lemma refDecrypt_encrypt (s : String) : refDecrypt (refEncrypt s) = some s := by
  unfold refDecrypt refEncrypt
  rw [data_append, if_pos (isPrefixOf_append envHead.data s.data)]
  have hd : (envHead.data ++ s.data).drop envHead.data.length = s.data :=
    List.drop_left _ _
  rw [hd]

/-- Concrete executable instance of the cipher interface; plays the role of
`_FERNET` when the store operations are evaluated on closed inputs. -/
def fernetRef : FernetModel :=
  { encrypt := refEncrypt
    decrypt := refDecrypt
    encrypt_looks := refEncrypt_looks
    decrypt_encrypt := refDecrypt_encrypt }

example : _looks_encrypted "plain" = false := by decide
example : _looks_encrypted (fernetRef.encrypt "plain") = true := by decide

/-- A persisted tenant record (the flat JSON objects stored in
`tenants.json`); field names follow app.py lines 135–145. -/
structure Tenant where
  id : String
  name : String
  tenantId : String
  clientId : String
  clientSecret : String
  isActive : Bool
  lastSync : String
  userCount : Int
  licenseCount : Int
deriving DecidableEq

/-- State of the backing `tenants.json` file: absent, present but not
parseable as JSON (the `except` branch of `_read_tenants`), or a parsed
list of records. -/
inductive FileState
  | missing
  | corrupt
  | content (tenants : List Tenant)
deriving DecidableEq

/-- The per-record migration test of `_read_tenants` (app.py line 57):
the secret is a non-empty string that does not match the envelope
heuristic. -/
def needsMigration (t : Tenant) : Bool :=
  !(t.clientSecret == "") && !(_looks_encrypted t.clientSecret)

/-- The in-place re-encryption of `_read_tenants` (app.py line 58). -/
def migrateTenant (F : FernetModel) (t : Tenant) : Tenant :=
  if needsMigration t then { t with clientSecret := F.encrypt t.clientSecret } else t

/-- Translation of `_read_tenants` (app.py lines 47–64).  Returns the
tenant list handed to the caller, the resulting file state, and whether
the file was rewritten (the `changed` flag guarding the
`_TENANTS_FILE.write_text` on line 61). -/
def _read_tenants (F : FernetModel) : FileState → List Tenant × FileState × Bool
  | FileState.missing => ([], FileState.missing, false)
  | FileState.corrupt => ([], FileState.corrupt, false)
  | FileState.content ts =>
      if ts.any needsMigration then
        (ts.map (migrateTenant F), FileState.content (ts.map (migrateTenant F)), true)
      else
        (ts.map (migrateTenant F), FileState.content ts, false)

/-- Translation of `_encrypt_secret` (app.py lines 38–42) on an actual
string (the `None` guard cannot fire on a `String`). -/
def _encrypt_secret (F : FernetModel) (plain : String) : String :=
  F.encrypt plain

/-- Translation of `_decrypt_secret` (app.py lines 205–212): values that
are empty or fail the envelope heuristic pass through unchanged; a value
matching the heuristic is decrypted, with `InvalidToken` (and any other
failure) degrading to the empty string. -/
def _decrypt_secret (F : FernetModel) (encrypted : String) : String :=
  if encrypted = "" ∨ _looks_encrypted encrypted = false then encrypted
  else
    match F.decrypt encrypted with
    | some plain => plain
    | none => ""

/-- The JSON body of a `POST /api/tenants` request, with the four required
string fields and the optional extras read by `create_tenant`
(app.py lines 129–145). -/
structure CreatePayload where
  name : String
  tenantId : String
  clientId : String
  clientSecret : String
  isActive : Option Bool
  lastSync : Option String
  userCount : Option Int
  licenseCount : Option Int
deriving DecidableEq

/-- The validation on app.py line 131: every required field non-blank
after trimming. -/
def createValid (p : CreatePayload) : Bool :=
  !(pyStrip p.name == "") && !(pyStrip p.tenantId == "") &&
  !(pyStrip p.clientId == "") && !(pyStrip p.clientSecret == "")

/-- The `new_item` dictionary built by `create_tenant`
(app.py lines 135–145), with `newId` standing for the fresh `uuid4`. -/
def mkNewTenant (F : FernetModel) (newId : String) (p : CreatePayload) : Tenant :=
  { id := newId
    name := pyStrip p.name
    tenantId := pyStrip p.tenantId
    clientId := pyStrip p.clientId
    clientSecret := _encrypt_secret F (pyStrip p.clientSecret)
    isActive := (p.isActive).getD true
    lastSync := (p.lastSync).getD ""
    userCount := pyOrZero ((p.userCount).getD 0)
    licenseCount := pyOrZero ((p.licenseCount).getD 0) }

inductive CreateResult
  | badRequest
  | created (t : Tenant)
deriving DecidableEq

/-- Translation of `create_tenant` (app.py lines 126–154): validate,
read (with migration), prepend the new record, persist. -/
def create_tenant (F : FernetModel) (newId : String) (p : CreatePayload)
    (file : FileState) : CreateResult × FileState :=
  if createValid p then
    (CreateResult.created (mkNewTenant F newId p),
     FileState.content (mkNewTenant F newId p :: (_read_tenants F file).1))
  else
    (CreateResult.badRequest, file)

/-- The JSON body of a `PUT /api/tenants/<id>` request: every field
optional (app.py lines 165–176). -/
structure UpdatePayload where
  name : Option String
  tenantId : Option String
  clientId : Option String
  isActive : Option Bool
  lastSync : Option String
  userCount : Option Int
  licenseCount : Option Int
  clientSecret : Option String
deriving DecidableEq

/-- The empty partial-fields payload `{}`. -/
def emptyUpdate : UpdatePayload := ⟨none, none, none, none, none, none, none, none⟩

/-- The field merge performed on the matching record by `update_tenant`
(app.py lines 165–176): supplied fields override, absent fields fall back
to the existing value, the three identity strings are re-trimmed, and the
secret is re-encrypted only when supplied and non-blank. -/
def applyUpdate (F : FernetModel) (p : UpdatePayload) (t : Tenant) : Tenant :=
  let base : Tenant :=
    { t with
      name := pyStrip ((p.name).getD t.name)
      tenantId := pyStrip ((p.tenantId).getD t.tenantId)
      clientId := pyStrip ((p.clientId).getD t.clientId)
      isActive := (p.isActive).getD t.isActive
      lastSync := (p.lastSync).getD t.lastSync
      userCount := pyOrZero ((p.userCount).getD t.userCount)
      licenseCount := pyOrZero ((p.licenseCount).getD t.licenseCount) }
  match p.clientSecret with
  | some s =>
      if pyStrip s = "" then base
      else { base with clientSecret := _encrypt_secret F (pyStrip s) }
  | none => base

/-- The search-and-update loop of `update_tenant` (app.py lines 162–178):
update the first record whose `id` matches, leave the rest untouched;
`none` when no record matches. -/
def updateFirst (F : FernetModel) (tid : String) (p : UpdatePayload) :
    List Tenant → Option (Tenant × List Tenant)
  | [] => none
  | t :: rest =>
      if t.id == tid then some (applyUpdate F p t, applyUpdate F p t :: rest)
      else
        match updateFirst F tid p rest with
        | none => none
        | some (u, ts) => some (u, t :: ts)

inductive UpdateResult
  | notFound
  | updated (t : Tenant)
deriving DecidableEq

/-- Translation of `update_tenant` (app.py lines 156–187): read (with
migration), merge into the first matching record, persist; 404 when no
record matches (the file then keeps whatever the read left behind). -/
def update_tenant (F : FernetModel) (tid : String) (p : UpdatePayload)
    (file : FileState) : UpdateResult × FileState :=
  match updateFirst F tid p (_read_tenants F file).1 with
  | none => (UpdateResult.notFound, (_read_tenants F file).2.1)
  | some (u, ts) => (UpdateResult.updated u, FileState.content ts)

inductive DeleteResult
  | notFound
  | ok
deriving DecidableEq

/-- Translation of `delete_tenant` (app.py lines 189–199): read (with
migration), drop records with the given `id`; 404 and no delete-write when
nothing was dropped. -/
def delete_tenant (F : FernetModel) (tid : String) (file : FileState) :
    DeleteResult × FileState :=
  let ts := (_read_tenants F file).1
  let remaining := ts.filter (fun t => !(t.id == tid))
  if remaining.length = ts.length then (DeleteResult.notFound, (_read_tenants F file).2.1)
  else (DeleteResult.ok, FileState.content remaining)

/-- The scan of `_get_tenant_credentials` (app.py lines 217–224): first
record matching the `id` whose `isActive` is truthy yields the decrypted
triplet; otherwise the all-empty triplet. -/
def findCreds (F : FernetModel) (tid : String) : List Tenant → String × String × String
  | [] => ("", "", "")
  | t :: rest =>
      if t.id == tid && t.isActive then
        (t.tenantId, t.clientId, _decrypt_secret F t.clientSecret)
      else findCreds F tid rest

/-- Translation of `_get_tenant_credentials` (app.py lines 214–224),
also exposing the file state its internal read leaves behind. -/
def _get_tenant_credentials (F : FernetModel) (tid : String) (file : FileState) :
    (String × String × String) × FileState :=
  (findCreds F tid (_read_tenants F file).1, (_read_tenants F file).2.1)

/-- A user object from the users fetch; only the field the metrics read
(app.py line 300). -/
structure UserObj where
  accountEnabled : Option Bool
deriving DecidableEq

/-- The nested `prepaidUnits` object of a license SKU (app.py line 303). -/
structure PrepaidUnits where
  enabled : Option Int
deriving DecidableEq

/-- A license SKU object from the licenses fetch (app.py lines 303–304). -/
structure SkuObj where
  prepaidUnits : Option PrepaidUnits
  consumedUnits : Option Int
deriving DecidableEq

/-- Outcome of one upstream fetch as seen by the `fetch_*` closures
(app.py lines 250–280): a 2xx response whose JSON body may or may not
carry a `value` key, or any exception / non-2xx status (the `except`
branch, which substitutes an empty collection). -/
inductive FetchOutcome (α : Type)
  | ok (value : Option (List α))
  | fail
deriving DecidableEq

/-- The collection extracted from a fetch outcome
(`*_data.get('value', [])`, app.py lines 293–296; the `except` branch
already returned a body with an empty `value`). -/
def fetchValue {α : Type} : FetchOutcome α → List α
  | FetchOutcome.ok (some l) => l
  | FetchOutcome.ok none => []
  | FetchOutcome.fail => []

/-- The metrics object assembled on app.py lines 312–327. -/
structure Metrics where
  totalUsers : Int
  activeUsers : Int
  disabledUsers : Int
  totalLicenses : Int
  usedLicenses : Int
  availableLicenses : Int
  userStatusActive : Int
  userStatusDisabled : Int
  licenseStatusUsed : Int
  licenseStatusAvailable : Int
deriving DecidableEq

/-- The per-SKU summand `lic.get('prepaidUnits', {}).get('enabled', 0)`
(app.py line 303). -/
def skuEnabled (l : SkuObj) : Int :=
  match l.prepaidUnits with
  | some p => (p.enabled).getD 0
  | none => 0

/-- The per-SKU summand `lic.get('consumedUnits', 0)` (app.py line 304). -/
def skuConsumed (l : SkuObj) : Int :=
  (l.consumedUnits).getD 0

/-- The metric computation of `_collect_tenant_data`
(app.py lines 299–327). -/
def computeMetrics (users : List UserObj) (licenses : List SkuObj) : Metrics :=
  let totalUsers : Int := users.length
  let activeUsers : Int := (users.filter (fun u => (u.accountEnabled).getD true)).length
  let disabledUsers : Int := totalUsers - activeUsers
  let totalLicenses : Int := (licenses.map skuEnabled).sum
  let usedLicenses : Int := (licenses.map skuConsumed).sum
  let availableLicenses : Int := totalLicenses - usedLicenses
  { totalUsers := totalUsers
    activeUsers := activeUsers
    disabledUsers := disabledUsers
    totalLicenses := totalLicenses
    usedLicenses := usedLicenses
    availableLicenses := availableLicenses
    userStatusActive := activeUsers
    userStatusDisabled := disabledUsers
    licenseStatusUsed := usedLicenses
    licenseStatusAvailable := availableLicenses }

/-- The response payload assembled on app.py lines 307–328; group and site
objects are opaque to the pipeline and modelled as strings. -/
structure Payload where
  users : List UserObj
  groups : List String
  sites : List String
  licenses : List SkuObj
  metrics : Metrics
deriving DecidableEq

/-- Result of `_collect_tenant_data`: the three `(payload, status)` shapes
it can produce apart from the catch-all 500 (app.py lines 232, 243, 341). -/
inductive CollectResult
  | notFound
  | authError
  | ok (p : Payload)
deriving DecidableEq

/-- The HTTP status paired with each collect result. -/
def collectStatus : CollectResult → Nat
  | CollectResult.notFound => 404
  | CollectResult.authError => 500
  | CollectResult.ok _ => 200

/-- Externally visible side effects of the pipeline that the claims talk
about: contacting the token acquirer (the MSAL `acquire_token_for_client`
call) and rewriting the store file. -/
inductive Eff
  | acquireToken
  | storeWrite
deriving DecidableEq

/-- The four upstream fetch outcomes, one per resource. -/
structure FetchResults where
  users : FetchOutcome UserObj
  licenses : FetchOutcome SkuObj
  groups : FetchOutcome String
  sites : FetchOutcome String

/-- The sync bookkeeping loop of `_collect_tenant_data`
(app.py lines 332–338): update the first record matching the `id`. -/
def syncUpdate (tid now : String) (totU totL : Int) : List Tenant → List Tenant
  | [] => []
  | t :: rest =>
      if t.id == tid then
        { t with lastSync := now, userCount := totU, licenseCount := totL } :: rest
      else t :: syncUpdate tid now totU totL rest

/-- Translation of `_collect_tenant_data` (app.py lines 226–343).  The
token-exchange response is `token` (`some` when it carries an
`access_token`), the four fetch outcomes are `fr`, and `now` is the
timestamp written by the sync step.  Returns the result, the final file
state, and the trace of observable effects. -/
def _collect_tenant_data (F : FernetModel) (tid : String) (file : FileState)
    (token : Option String) (fr : FetchResults) (now : String) :
    CollectResult × FileState × List Eff :=
  let creds := (_get_tenant_credentials F tid file).1
  let file1 := (_get_tenant_credentials F tid file).2
  let eff0 : List Eff := if (_read_tenants F file).2.2 then [Eff.storeWrite] else []
  if creds.1 = "" ∨ creds.2.1 = "" ∨ creds.2.2 = "" then
    (CollectResult.notFound, file1, eff0)
  else
    match token with
    | none => (CollectResult.authError, file1, eff0 ++ [Eff.acquireToken])
    | some _ =>
        let users := fetchValue fr.users
        let licenses := fetchValue fr.licenses
        let groups := fetchValue fr.groups
        let sites := fetchValue fr.sites
        let m := computeMetrics users licenses
        let payload : Payload :=
          { users := users, groups := groups, sites := sites,
            licenses := licenses, metrics := m }
        let eff1 : List Eff := if (_read_tenants F file1).2.2 then [Eff.storeWrite] else []
        let ts2 := syncUpdate tid now m.totalUsers m.totalLicenses (_read_tenants F file1).1
        (CollectResult.ok payload, FileState.content ts2,
         eff0 ++ [Eff.acquireToken] ++ eff1 ++ [Eff.storeWrite])

/-- Interleaved execution of two concurrent `create_tenant` calls, both
with valid payloads.  `_TENANTS_LOCK` is acquired separately by
`_read_tenants` (app.py line 48) and `_write_tenants` (app.py line 67), so
each of those blocks is one atomic step and the schedule
read-A, read-B, write-A, write-B is permitted by the code's locking: B's
write persists the list B read before A's write landed. -/
def twoCreatesLost (F : FernetModel) (idA idB : String) (pA pB : CreatePayload)
    (file0 : FileState) : FileState :=
  let readA := _read_tenants F file0
  let readB := _read_tenants F readA.2.1
  let _writeA := FileState.content (mkNewTenant F idA pA :: readA.1)
  FileState.content (mkNewTenant F idB pB :: readB.1)

lemma needsMigration_eq_false_iff (t : Tenant) :
    needsMigration t = false ↔
      (t.clientSecret = "" ∨ _looks_encrypted t.clientSecret = true) := by
  unfold needsMigration
  cases h : _looks_encrypted t.clientSecret <;> simp [h]

lemma needsMigration_migrateTenant (F : FernetModel) (t : Tenant) :
    needsMigration (migrateTenant F t) = false := by
  unfold migrateTenant
  cases hn : needsMigration t with
  | false => simp [hn]
  | true =>
      simp only [hn, if_true]
      unfold needsMigration
      simp [F.encrypt_looks]

lemma migrateTenant_of_not_needed (F : FernetModel) (t : Tenant)
    (h : needsMigration t = false) : migrateTenant F t = t := by
  unfold migrateTenant
  simp [h]

lemma map_migrateTenant_eq_self (F : FernetModel) (ts : List Tenant)
    (h : ∀ t ∈ ts, needsMigration t = false) :
    ts.map (migrateTenant F) = ts := by
  induction ts with
  | nil => rfl
  | cons t rest ih =>
      simp only [List.map_cons]
      rw [migrateTenant_of_not_needed F t (h t (by simp)),
        ih (fun x hx => h x (by simp [hx]))]

lemma read_content (F : FernetModel) (ts : List Tenant) :
    _read_tenants F (FileState.content ts) =
      (ts.map (migrateTenant F),
       if ts.any needsMigration then FileState.content (ts.map (migrateTenant F))
       else FileState.content ts,
       ts.any needsMigration) := by
  unfold _read_tenants
  cases h : ts.any needsMigration <;> simp [h]

lemma read_no_rewrite_file (F : FernetModel) (file : FileState)
    (h : (_read_tenants F file).2.2 = false) :
    (_read_tenants F file).2.1 = file := by
  cases file with
  | missing => rfl
  | corrupt => rfl
  | content ts =>
      rw [read_content] at h ⊢
      simp only at h
      simp [h]

lemma read_list_no_migration (F : FernetModel) (ts : List Tenant)
    (h : ∀ t ∈ ts, needsMigration t = false) :
    _read_tenants F (FileState.content ts) = (ts, FileState.content ts, false) := by
  rw [read_content]
  have hany : ts.any needsMigration = false := by
    rw [List.any_eq_false]
    intro t ht
    simp [h t ht]
  rw [map_migrateTenant_eq_self F ts h]
  simp [hany]

lemma pyOrZero_eq (n : Int) : pyOrZero n = n := by
  unfold pyOrZero
  by_cases h : n = 0 <;> simp [h]

lemma any_needsMigration_map_migrate (F : FernetModel) (ts : List Tenant) :
    (ts.map (migrateTenant F)).any needsMigration = false := by
  rw [List.any_eq_false]
  intro t ht
  obtain ⟨t₀, _, rfl⟩ := List.mem_map.mp ht
  simp [needsMigration_migrateTenant F t₀]

/-- C1: reading a persisted tenant list re-encrypts in place every record
whose secret is a non-empty string outside the cipher envelope format
(so every returned non-empty secret is in envelope form), leaves
envelope-form secrets unchanged, rewrites the backing file exactly when at
least one migration occurred (the rewritten file holding the returned
list), and a second read of the resulting file performs no rewrite. -/
theorem read_migrates_plaintext_and_is_idempotent (F : FernetModel) (ts : List Tenant) :
    (_read_tenants F (FileState.content ts)).1 = ts.map (migrateTenant F) ∧
    (∀ t ∈ ts, needsMigration t = true →
        (migrateTenant F t).clientSecret = F.encrypt t.clientSecret) ∧
    (∀ t ∈ ts, _looks_encrypted t.clientSecret = true → migrateTenant F t = t) ∧
    (∀ t ∈ (_read_tenants F (FileState.content ts)).1,
        t.clientSecret ≠ "" → _looks_encrypted t.clientSecret = true) ∧
    ((_read_tenants F (FileState.content ts)).2.2 = true ↔
        ∃ t ∈ ts, t.clientSecret ≠ "" ∧ _looks_encrypted t.clientSecret = false) ∧
    ((_read_tenants F (FileState.content ts)).2.2 = true →
        (_read_tenants F (FileState.content ts)).2.1 =
          FileState.content ((_read_tenants F (FileState.content ts)).1)) ∧
    (_read_tenants F (_read_tenants F (FileState.content ts)).2.1).2.2 = false := by
  refine ⟨?_, ?_, ?_, ?_, ?_, ?_, ?_⟩
  · rw [read_content]
  · intro t _ h
    unfold migrateTenant
    simp [h]
  · intro t _ h
    exact migrateTenant_of_not_needed F t
      ((needsMigration_eq_false_iff t).mpr (Or.inr h))
  · rw [read_content]
    intro t ht hne
    obtain ⟨t₀, _, rfl⟩ := List.mem_map.mp ht
    have hm := needsMigration_migrateTenant F t₀
    rcases (needsMigration_eq_false_iff _).mp hm with h | h
    · exact absurd h hne
    · exact h
  · rw [read_content]
    simp only [List.any_eq_true]
    constructor
    · rintro ⟨t, ht, hm⟩
      refine ⟨t, ht, ?_, ?_⟩
      · intro h
        unfold needsMigration at hm
        simp [h] at hm
      · unfold needsMigration at hm
        rcases Bool.and_eq_true_iff.mp hm with ⟨_, h2⟩
        simpa using h2
    · rintro ⟨t, ht, h1, h2⟩
      refine ⟨t, ht, ?_⟩
      unfold needsMigration
      simp [h1, h2]
  · rw [read_content]
    intro h
    simp only at h
    simp [h]
  · cases h : ts.any needsMigration with
    | true =>
        have h1 : (_read_tenants F (FileState.content ts)).2.1 =
            FileState.content (ts.map (migrateTenant F)) := by
          rw [read_content]
          simp [h]
        rw [h1, read_content]
        exact any_needsMigration_map_migrate F ts
    | false =>
        have h0 : (_read_tenants F (FileState.content ts)).2.2 = false := by
          rw [read_content]
          exact h
        rw [read_no_rewrite_file F _ h0, read_content]
        exact h

/-- Witness for C1 at a concrete store holding one legacy plaintext secret
and one envelope-form secret: the first read rewrites the file, the second
read of the resulting file does not. -/
theorem read_migrates_plaintext_witness :
    (_read_tenants fernetRef (FileState.content
        [⟨"a", "A", "dirA", "cidA", "plainsecret", true, "", 0, 0⟩,
         ⟨"b", "B", "dirB", "cidB", "gAAAA_model_padding__sec", true, "", 0, 0⟩])).2.2
      = true ∧
    (_read_tenants fernetRef
        (_read_tenants fernetRef (FileState.content
          [⟨"a", "A", "dirA", "cidA", "plainsecret", true, "", 0, 0⟩,
           ⟨"b", "B", "dirB", "cidB", "gAAAA_model_padding__sec", true, "", 0, 0⟩])).2.1).2.2
      = false := by
  have h := read_migrates_plaintext_and_is_idempotent fernetRef
    [⟨"a", "A", "dirA", "cidA", "plainsecret", true, "", 0, 0⟩,
     ⟨"b", "B", "dirB", "cidB", "gAAAA_model_padding__sec", true, "", 0, 0⟩]
  refine ⟨?_, h.2.2.2.2.2.2⟩
  exact h.2.2.2.2.1.mpr
    ⟨⟨"a", "A", "dirA", "cidA", "plainsecret", true, "", 0, 0⟩,
      by decide, by decide, by decide⟩

lemma looks_encrypted_empty : _looks_encrypted "" = false := by decide

lemma decrypt_encrypt_secret (F : FernetModel) (s : String) :
    _decrypt_secret F (_encrypt_secret F s) = s := by
  unfold _decrypt_secret _encrypt_secret
  have hl := F.encrypt_looks s
  have hne : ¬(F.encrypt s = "" ∨ _looks_encrypted (F.encrypt s) = false) := by
    rintro (h | h)
    · rw [h] at hl
      exact absurd hl (by decide)
    · rw [hl] at h
      cases h
  rw [if_neg hne, F.decrypt_encrypt]

/-- C2: decrypting the encryption of any plaintext with the process-wide
cipher returns the plaintext; a `create_tenant` call with a valid payload
returns the created record, whose stored secret decrypts back to the
trimmed plaintext secret supplied, and persists it at the head of the
list. -/
theorem encrypt_decrypt_roundtrip_on_create (F : FernetModel) (s newId : String)
    (p : CreatePayload) (file : FileState) (hv : createValid p = true) :
    _decrypt_secret F (_encrypt_secret F s) = s ∧
    (create_tenant F newId p file).1 = CreateResult.created (mkNewTenant F newId p) ∧
    _decrypt_secret F (mkNewTenant F newId p).clientSecret = pyStrip p.clientSecret ∧
    (create_tenant F newId p file).2 =
      FileState.content (mkNewTenant F newId p :: (_read_tenants F file).1) := by
  refine ⟨decrypt_encrypt_secret F s, ?_, ?_, ?_⟩
  · unfold create_tenant
    simp [hv]
  · exact decrypt_encrypt_secret F (pyStrip p.clientSecret)
  · unfold create_tenant
    simp [hv]

/-- Witness for C2: a concrete create on the empty store; the stored secret
decrypts to the trimmed plaintext. -/
theorem encrypt_decrypt_roundtrip_witness :
    _decrypt_secret fernetRef (_encrypt_secret fernetRef "hello") = "hello" ∧
    _decrypt_secret fernetRef
        (mkNewTenant fernetRef "id-1"
          ⟨"N", "dir", "cid", " secret ", none, none, none, none⟩).clientSecret
      = "secret" := by
  have h := encrypt_decrypt_roundtrip_on_create fernetRef "hello" "id-1"
    ⟨"N", "dir", "cid", " secret ", none, none, none, none⟩ FileState.missing (by decide)
  exact ⟨h.1, h.2.2.1.trans (by decide)⟩

/-- C10: a string outside the envelope heuristic (empty, lacking the
`gAAAA` magic, or of length at most 20) passes through `_decrypt_secret`
unchanged; a string matching the heuristic whose decryption fails yields
the empty string. -/
theorem decrypt_passthrough_non_envelope (F : FernetModel) (s : String) :
    (s = "" ∨ pyStartsWith s "gAAAA" = false ∨ s.length ≤ 20 →
        _decrypt_secret F s = s) ∧
    (_looks_encrypted s = true → F.decrypt s = none → _decrypt_secret F s = "") := by
  constructor
  · intro h
    have hl : _looks_encrypted s = false := by
      unfold _looks_encrypted
      rcases h with h | h | h
      · subst h
        decide
      · simp [h]
      · have hn : ¬(s.length > 20) := by omega
        simp [hn]
    unfold _decrypt_secret
    rw [if_pos (Or.inr hl)]
  · intro hl hd
    have hne : ¬(s = "" ∨ _looks_encrypted s = false) := by
      rintro (h | h)
      · subst h
        exact absurd hl (by decide)
      · rw [hl] at h
        cases h
    unfold _decrypt_secret
    rw [if_neg hne, hd]

/-- Witness for C10: a legacy plaintext secret passes through unchanged; an
envelope-shaped string the cipher rejects yields the empty string. -/
theorem decrypt_passthrough_witness :
    _decrypt_secret fernetRef "legacyplain" = "legacyplain" ∧
    _decrypt_secret fernetRef "gAAAAZZZZZZZZZZZZZZZZZZ" = "" :=
  ⟨(decrypt_passthrough_non_envelope fernetRef "legacyplain").1
      (Or.inr (Or.inl (by decide))),
   (decrypt_passthrough_non_envelope fernetRef "gAAAAZZZZZZZZZZZZZZZZZZ").2
      (by decide) (by decide)⟩

lemma activePred_eq (u : UserObj) :
    (u.accountEnabled).getD true =
      (u.accountEnabled == some true || u.accountEnabled == none) := by
  cases u.accountEnabled with
  | none => rfl
  | some b => cases b <;> rfl

/-- C4: the user metrics: `totalUsers` is the number of user objects,
`activeUsers` counts those whose `accountEnabled` is `true` or absent,
`disabledUsers` is their difference; on the example list
`[{accountEnabled:true}, {accountEnabled:false}, {}]` they are 3, 2, 1. -/
theorem user_metrics_formulas (users : List UserObj) (lics : List SkuObj) :
    (computeMetrics users lics).totalUsers = users.length ∧
    (computeMetrics users lics).activeUsers =
      users.countP (fun u => u.accountEnabled == some true || u.accountEnabled == none) ∧
    (computeMetrics users lics).disabledUsers =
      (computeMetrics users lics).totalUsers - (computeMetrics users lics).activeUsers ∧
    (computeMetrics [⟨some true⟩, ⟨some false⟩, ⟨none⟩] []).totalUsers = 3 ∧
    (computeMetrics [⟨some true⟩, ⟨some false⟩, ⟨none⟩] []).activeUsers = 2 ∧
    (computeMetrics [⟨some true⟩, ⟨some false⟩, ⟨none⟩] []).disabledUsers = 1 := by
  refine ⟨rfl, ?_, rfl, by decide, by decide, by decide⟩
  show ((users.filter (fun u => (u.accountEnabled).getD true)).length : Int) = _
  rw [List.countP_eq_length_filter]
  simp only [activePred_eq]

/-- C5: the license metrics: `totalLicenses` sums `prepaidUnits.enabled`
over the SKUs with a missing field contributing 0, `usedLicenses` sums
`consumedUnits` likewise, and `availableLicenses` is their exact integer
difference without clamping — on a SKU list with 5 consumed out of 1
prepaid it is the negative value -4; on the spec's example list it is
15, 9, 6. -/
theorem license_metrics_formulas (users : List UserObj) (lics : List SkuObj) :
    (computeMetrics users lics).totalLicenses =
      (lics.map (fun l =>
        match l.prepaidUnits with
        | some p => (p.enabled).getD 0
        | none => 0)).sum ∧
    (computeMetrics users lics).usedLicenses =
      (lics.map (fun l => (l.consumedUnits).getD 0)).sum ∧
    (computeMetrics users lics).availableLicenses =
      (computeMetrics users lics).totalLicenses -
        (computeMetrics users lics).usedLicenses ∧
    (computeMetrics [] [⟨some ⟨some 10⟩, some 4⟩, ⟨some ⟨some 5⟩, some 5⟩]).totalLicenses
      = 15 ∧
    (computeMetrics [] [⟨some ⟨some 10⟩, some 4⟩, ⟨some ⟨some 5⟩, some 5⟩]).usedLicenses
      = 9 ∧
    (computeMetrics [] [⟨some ⟨some 10⟩, some 4⟩, ⟨some ⟨some 5⟩, some 5⟩]).availableLicenses
      = 6 ∧
    (computeMetrics [] [⟨some ⟨some 1⟩, some 5⟩]).availableLicenses = -4 :=
  ⟨rfl, rfl, rfl, by decide, by decide, by decide, by decide⟩

/-- C3: with resolvable credentials and a granted token, the aggregation
returns status 200 and a payload whose four collections are exactly the
values extracted from the four fetch outcomes, a failed fetch always
extracting the empty collection — so any one failing fetch leaves its own
collection empty while the other three still contribute their results. -/
theorem aggregate_fault_isolated (F : FernetModel) (tid now tok : String)
    (file : FileState) (fr : FetchResults)
    (h1 : (_get_tenant_credentials F tid file).1.1 ≠ "")
    (h2 : (_get_tenant_credentials F tid file).1.2.1 ≠ "")
    (h3 : (_get_tenant_credentials F tid file).1.2.2 ≠ "") :
    (_collect_tenant_data F tid file (some tok) fr now).1 =
      CollectResult.ok
        { users := fetchValue fr.users
          groups := fetchValue fr.groups
          sites := fetchValue fr.sites
          licenses := fetchValue fr.licenses
          metrics := computeMetrics (fetchValue fr.users) (fetchValue fr.licenses) } ∧
    collectStatus (_collect_tenant_data F tid file (some tok) fr now).1 = 200 ∧
    (∀ (α : Type), fetchValue (FetchOutcome.fail : FetchOutcome α) = []) := by
  have hcond : ¬((_get_tenant_credentials F tid file).1.1 = "" ∨
      (_get_tenant_credentials F tid file).1.2.1 = "" ∨
      (_get_tenant_credentials F tid file).1.2.2 = "") := by
    rintro (h | h | h)
    · exact h1 h
    · exact h2 h
    · exact h3 h
  have hres : (_collect_tenant_data F tid file (some tok) fr now).1 =
      CollectResult.ok
        { users := fetchValue fr.users
          groups := fetchValue fr.groups
          sites := fetchValue fr.sites
          licenses := fetchValue fr.licenses
          metrics := computeMetrics (fetchValue fr.users) (fetchValue fr.licenses) } := by
    simp only [_collect_tenant_data]
    rw [if_neg hcond]
  exact ⟨hres, by rw [hres]; rfl, fun α => rfl⟩

/-- Witness for C3: a store with one active, fully-credentialed tenant, a
granted token, a failing users fetch and three successful fetches — the
aggregation returns 200 with an empty users collection and the other three
collections populated. -/
theorem aggregate_fault_isolated_witness :
    (_collect_tenant_data fernetRef "t1"
        (FileState.content
          [⟨"t1", "T", "dir", "cid", "gAAAA_model_padding__sec", true, "", 0, 0⟩])
        (some "tok")
        ⟨FetchOutcome.fail,
         FetchOutcome.ok (some [⟨some ⟨some 10⟩, some 4⟩]),
         FetchOutcome.ok (some ["g1"]),
         FetchOutcome.ok (some ["s1"])⟩ "now").1 =
      CollectResult.ok
        { users := []
          groups := ["g1"]
          sites := ["s1"]
          licenses := [⟨some ⟨some 10⟩, some 4⟩]
          metrics := computeMetrics [] [⟨some ⟨some 10⟩, some 4⟩] } ∧
    collectStatus
      (_collect_tenant_data fernetRef "t1"
        (FileState.content
          [⟨"t1", "T", "dir", "cid", "gAAAA_model_padding__sec", true, "", 0, 0⟩])
        (some "tok")
        ⟨FetchOutcome.fail,
         FetchOutcome.ok (some [⟨some ⟨some 10⟩, some 4⟩]),
         FetchOutcome.ok (some ["g1"]),
         FetchOutcome.ok (some ["s1"])⟩ "now").1 = 200 := by
  have h := aggregate_fault_isolated fernetRef "t1" "now" "tok"
    (FileState.content
      [⟨"t1", "T", "dir", "cid", "gAAAA_model_padding__sec", true, "", 0, 0⟩])
    ⟨FetchOutcome.fail,
     FetchOutcome.ok (some [⟨some ⟨some 10⟩, some 4⟩]),
     FetchOutcome.ok (some ["g1"]),
     FetchOutcome.ok (some ["s1"])⟩
    (by decide) (by decide) (by decide)
  exact ⟨h.1, h.2.1⟩

lemma findCreds_all_inactive (F : FernetModel) (tid : String) (l : List Tenant)
    (h : ∀ t ∈ l, t.id = tid → t.isActive = false) :
    findCreds F tid l = ("", "", "") := by
  induction l with
  | nil => rfl
  | cons t rest ih =>
      have hcond : (t.id == tid && t.isActive) = false := by
        by_cases hid : t.id = tid
        · simp [hid, h t (by simp) hid]
        · simp [hid]
      simp only [findCreds, hcond, Bool.false_eq_true, if_false]
      exact ih (fun x hx hid => h x (by simp [hx]) hid)

/-- C6: credential resolution on an identifier every matching record of
which is inactive (in particular a nonexistent identifier) yields the
all-empty triplet, and whenever the resolved triplet has an empty
component the aggregation returns the not-found result with status 404
and its effect trace never contacts the token acquirer. -/
theorem resolve_empty_triplet_yields_404 (F : FernetModel) (tid now : String)
    (file : FileState) (token : Option String) (fr : FetchResults) :
    ((∀ t ∈ (_read_tenants F file).1, t.id = tid → t.isActive = false) →
        (_get_tenant_credentials F tid file).1 = ("", "", "")) ∧
    ((_get_tenant_credentials F tid file).1.1 = "" ∨
        (_get_tenant_credentials F tid file).1.2.1 = "" ∨
        (_get_tenant_credentials F tid file).1.2.2 = "" →
      (_collect_tenant_data F tid file token fr now).1 = CollectResult.notFound ∧
      collectStatus (_collect_tenant_data F tid file token fr now).1 = 404 ∧
      Eff.acquireToken ∉ (_collect_tenant_data F tid file token fr now).2.2) := by
  constructor
  · intro h
    exact findCreds_all_inactive F tid _ h
  · intro h
    have hres : _collect_tenant_data F tid file token fr now =
        (CollectResult.notFound, (_get_tenant_credentials F tid file).2,
         if (_read_tenants F file).2.2 then [Eff.storeWrite] else []) := by
      simp only [_collect_tenant_data]
      rw [if_pos h]
    rw [hres]
    refine ⟨rfl, rfl, ?_⟩
    cases hw : (_read_tenants F file).2.2 <;> simp [hw]

/-- Witness for C6: a store whose only record matches the identifier but is
inactive — resolution yields the empty triplet and the aggregation returns
404 without contacting the token acquirer. -/
theorem resolve_empty_triplet_witness :
    (_get_tenant_credentials fernetRef "t1"
        (FileState.content
          [⟨"t1", "T", "dir", "cid", "gAAAA_model_padding__sec", false, "", 0, 0⟩])).1
      = ("", "", "") ∧
    (_collect_tenant_data fernetRef "t1"
        (FileState.content
          [⟨"t1", "T", "dir", "cid", "gAAAA_model_padding__sec", false, "", 0, 0⟩])
        (some "tok")
        ⟨FetchOutcome.fail, FetchOutcome.fail, FetchOutcome.fail, FetchOutcome.fail⟩
        "now").1 = CollectResult.notFound ∧
    Eff.acquireToken ∉
      (_collect_tenant_data fernetRef "t1"
        (FileState.content
          [⟨"t1", "T", "dir", "cid", "gAAAA_model_padding__sec", false, "", 0, 0⟩])
        (some "tok")
        ⟨FetchOutcome.fail, FetchOutcome.fail, FetchOutcome.fail, FetchOutcome.fail⟩
        "now").2.2 := by
  have h := resolve_empty_triplet_yields_404 fernetRef "t1" "now"
    (FileState.content
      [⟨"t1", "T", "dir", "cid", "gAAAA_model_padding__sec", false, "", 0, 0⟩])
    (some "tok")
    ⟨FetchOutcome.fail, FetchOutcome.fail, FetchOutcome.fail, FetchOutcome.fail⟩
  have h1 := h.1 (by decide)
  have h2 := h.2 (Or.inl (by decide))
  exact ⟨h1, h2.1, h2.2.2⟩

/-- Counterexample to C7 as stated: an existing record with
whitespace-padded `name` and a legacy plaintext secret.  `update` with the
empty payload re-trims the name and (via migration-on-read) re-encrypts
the secret, so two fields of the record change. -/
theorem update_empty_payload_changes_record :
    (update_tenant fernetRef "t1" emptyUpdate
        (FileState.content [⟨"t1", " padded ", "dir", "cid", "plain", true, "", 0, 0⟩])).1 =
      UpdateResult.updated
        ⟨"t1", "padded", "dir", "cid", "gAAAA_model_padding__plain", true, "", 0, 0⟩ ∧
    ("padded" : String) ≠ " padded " ∧
    ("gAAAA_model_padding__plain" : String) ≠ "plain" := by
  decide

lemma applyUpdate_empty (F : FernetModel) (t : Tenant)
    (hname : pyStrip t.name = t.name)
    (htid : pyStrip t.tenantId = t.tenantId)
    (hcid : pyStrip t.clientId = t.clientId) :
    applyUpdate F emptyUpdate t = t := by
  cases t with
  | mk i n d c cs act ls uc lc =>
      simp [applyUpdate, emptyUpdate, pyOrZero_eq, hname, htid, hcid]

lemma updateFirst_eq_of_find (F : FernetModel) (p : UpdatePayload) (tid : String)
    (ts : List Tenant) (t : Tenant)
    (hfind : ts.find? (fun x => x.id == tid) = some t)
    (happ : applyUpdate F p t = t) :
    updateFirst F tid p ts = some (t, ts) := by
  induction ts with
  | nil => cases hfind
  | cons a rest ih =>
      cases ha : (a.id == tid) with
      | true =>
          simp only [List.find?, ha] at hfind
          obtain rfl : a = t := Option.some.inj hfind
          simp only [updateFirst, ha, if_true, happ]
      | false =>
          simp only [List.find?, ha] at hfind
          simp only [updateFirst, ha, Bool.false_eq_true, if_false, ih hfind]

/-- C7 as amended: for an existing record whose `name`, `tenantId` and
`clientId` carry no leading or trailing whitespace, in a store none of
whose records holds a legacy plaintext secret, the update operation with
an empty partial-fields payload leaves every field of the record — and the
whole store — unchanged. -/
theorem update_empty_payload_preserves_normalized_record (F : FernetModel)
    (ts : List Tenant) (tid : String) (t : Tenant)
    (hfind : ts.find? (fun x => x.id == tid) = some t)
    (hmig : ∀ x ∈ ts, needsMigration x = false)
    (hname : pyStrip t.name = t.name)
    (htid : pyStrip t.tenantId = t.tenantId)
    (hcid : pyStrip t.clientId = t.clientId) :
    update_tenant F tid emptyUpdate (FileState.content ts) =
      (UpdateResult.updated t, FileState.content ts) := by
  have hread := read_list_no_migration F ts hmig
  have hupd := updateFirst_eq_of_find F emptyUpdate tid ts t hfind
    (applyUpdate_empty F t hname htid hcid)
  simp only [update_tenant, hread, hupd]

/-- Witness for the amended C7 at a concrete normalized record. -/
theorem update_empty_payload_preserves_witness :
    update_tenant fernetRef "t1" emptyUpdate
        (FileState.content
          [⟨"t1", "T", "dir", "cid", "gAAAA_model_padding__sec", true, "", 0, 0⟩]) =
      (UpdateResult.updated
        ⟨"t1", "T", "dir", "cid", "gAAAA_model_padding__sec", true, "", 0, 0⟩,
       FileState.content
        [⟨"t1", "T", "dir", "cid", "gAAAA_model_padding__sec", true, "", 0, 0⟩]) :=
  update_empty_payload_preserves_normalized_record fernetRef
    [⟨"t1", "T", "dir", "cid", "gAAAA_model_padding__sec", true, "", 0, 0⟩] "t1"
    ⟨"t1", "T", "dir", "cid", "gAAAA_model_padding__sec", true, "", 0, 0⟩
    (by decide) (by decide) (by decide) (by decide) (by decide)

/-- Counterexample to C8 as stated: deleting a nonexistent identifier from
a store holding a legacy plaintext secret returns 404 but rewrites the
file, because the read migrates the plaintext secret in place. -/
theorem delete_missing_id_rewrites_on_migration :
    (delete_tenant fernetRef "zzz"
        (FileState.content [⟨"a", "A", "dir", "cid", "plain", true, "", 0, 0⟩])).1 =
      DeleteResult.notFound ∧
    (delete_tenant fernetRef "zzz"
        (FileState.content [⟨"a", "A", "dir", "cid", "plain", true, "", 0, 0⟩])).2 ≠
      FileState.content [⟨"a", "A", "dir", "cid", "plain", true, "", 0, 0⟩] := by
  decide

/-- C8 as amended: deleting an identifier matching no record returns the
not-found error, and the store file is unchanged provided the read
performed no plaintext-secret migration. -/
theorem delete_missing_id_preserves_file (F : FernetModel) (tid : String)
    (file : FileState)
    (hw : (_read_tenants F file).2.2 = false)
    (hid : ∀ t ∈ (_read_tenants F file).1, ¬t.id = tid) :
    delete_tenant F tid file = (DeleteResult.notFound, file) := by
  have hfilter : List.filter (fun t => !(t.id == tid)) (_read_tenants F file).1 =
      (_read_tenants F file).1 := by
    rw [List.filter_eq_self]
    intro t ht
    simp [hid t ht]
  simp only [delete_tenant, hfilter]
  rw [if_pos trivial, read_no_rewrite_file F file hw]

/-- Witness for the amended C8: deleting a nonexistent identifier from a
store holding only an envelope-form secret leaves the file unchanged. -/
theorem delete_missing_id_preserves_witness :
    delete_tenant fernetRef "zzz"
        (FileState.content
          [⟨"a", "A", "dir", "cid", "gAAAA_model_padding__sec", true, "", 0, 0⟩]) =
      (DeleteResult.notFound,
       FileState.content
          [⟨"a", "A", "dir", "cid", "gAAAA_model_padding__sec", true, "", 0, 0⟩]) :=
  delete_missing_id_preserves_file fernetRef "zzz"
    (FileState.content
      [⟨"a", "A", "dir", "cid", "gAAAA_model_padding__sec", true, "", 0, 0⟩])
    (by decide) (by decide)

/-- C9 is violated by the code: `_TENANTS_LOCK` is released between the
read and the write of every create, so the interleaving
read-A, read-B, write-A, write-B of two valid concurrent creates on the
empty store leaves only B's record — A's insert is lost — whereas the same
two creates run sequentially keep both records. -/
theorem create_interleaving_loses_insert :
    twoCreatesLost fernetRef "idA" "idB"
        ⟨"A", "dirA", "cidA", "secA", none, none, none, none⟩
        ⟨"B", "dirB", "cidB", "secB", none, none, none, none⟩
        (FileState.content []) =
      FileState.content
        [mkNewTenant fernetRef "idB" ⟨"B", "dirB", "cidB", "secB", none, none, none, none⟩] ∧
    (create_tenant fernetRef "idB" ⟨"B", "dirB", "cidB", "secB", none, none, none, none⟩
        (create_tenant fernetRef "idA" ⟨"A", "dirA", "cidA", "secA", none, none, none, none⟩
          (FileState.content [])).2).2 =
      FileState.content
        [mkNewTenant fernetRef "idB" ⟨"B", "dirB", "cidB", "secB", none, none, none, none⟩,
         mkNewTenant fernetRef "idA" ⟨"A", "dirA", "cidA", "secA", none, none, none, none⟩] := by
  constructor
  · rfl
  · decide
